import Mathlib

/-!
# Verification of the reddit-flair-analyzer core

A shallow embedding of the statistical core of `reddit-flair-analyzer`
(`redditflairanalyzer/analyzer.py` and `redditflairanalyzer/scraper.py`),
with theorems checking the repository's natural-language specification
against it.

Modelling conventions:
* A pandas `DataFrame` of posts is a list of rows; a numeric column is a
  rational-valued field of the row (scores are integers in the source, and
  every derived column is produced by exact field arithmetic on them, so `ℚ`
  is an exact model of the float computations the claims touch).
* The square root in the confidence weight is real-valued, so the
  float-valued derived columns `confidence`, `viral_rate_adjusted` and
  `viral_score` of the stats table are modelled as `ℝ`-valued functions of a
  stats row rather than as stored fields; no downstream consumer reads them
  back (the ranking sorts by `viral_rate` alone).
* The sample standard deviation column `score_std` is not modelled: pandas
  returns `NaN` for it on singleton groups and nothing downstream (and no
  claim) reads it.
* Exceptions raised by `analyze_flair_performance` are modelled with
  `Except`: `ValueError` from the column check, `ZeroDivisionError` from
  `viral_post_percentage` on an empty frame, and the `TypeError` raised by
  `_print_analysis_summary` when it `%`-formats the `None` stored in
  `most_viral_rate` (no flair survived the `min_posts` filter).
-/

namespace RedditFlair

/-- A row of the post DataFrame, restricted to the columns the analysis core
reads (`flair`, `score`, `num_comments`, `upvote_ratio`).  In the source a row
carries further metadata columns (`id`, `title`, `author`, ...) that the
aggregation pipeline never touches. -/
structure Post where
  flair : String
  score : ℚ
  num_comments : ℚ
  upvote_ratio : ℚ
deriving DecidableEq

/-- `analysis_df['is_viral'] = analysis_df['score'] >= score_threshold`
(analyzer.py line 61). -/
def is_viral (score_threshold : ℚ) (p : Post) : Bool :=
  decide (score_threshold ≤ p.score)

/-- `analysis_df['engagement'] = num_comments + score` (analyzer.py line 64). -/
def engagement (p : Post) : ℚ := p.num_comments + p.score

/-- `analysis_df['efficiency'] = score / max(num_comments, 1)`
(analyzer.py line 65). -/
def efficiency (p : Post) : ℚ := p.score / max p.num_comments 1

/-- pandas `mean` of a numeric column (sum over length; the empty case never
reaches a consumer on the non-error paths). -/
def meanQ (l : List ℚ) : ℚ := l.sum / l.length

/-- pandas `median`: the middle order statistic, or the midpoint of the two
middle order statistics for an even count. -/
def medianQ (l : List ℚ) : ℚ :=
  let s := List.insertionSort (· ≤ ·) l
  let n := s.length
  if n % 2 = 1 then s.getD (n / 2) 0
  else (s.getD (n / 2 - 1) 0 + s.getD (n / 2) 0) / 2

/-- pandas `max` of a numeric column: its largest order statistic. -/
def maxQ (l : List ℚ) : ℚ :=
  (List.insertionSort (· ≤ ·) l).getD (l.length - 1) 0

/-- Linear interpolation at fractional rank `h` into the sorted list `s`:
the value pandas reads off between the order statistics at `⌊h⌋` and
`⌊h⌋ + 1`. -/
def interpAt (s : List ℚ) (h : ℚ) : ℚ :=
  s.getD (⌊h⌋).toNat 0 +
    (h - ((⌊h⌋).toNat : ℚ)) *
      (s.getD (min ((⌊h⌋).toNat + 1) (s.length - 1)) 0 - s.getD (⌊h⌋).toNat 0)

/-- `Series.quantile(q)` with the default linear interpolation, as pandas
computes it: the value at fractional rank `q * (n - 1)` of the sorted
sample. -/
def quantile (scores : List ℚ) (q : ℚ) : ℚ :=
  let s := List.insertionSort (· ≤ ·) scores
  interpAt s (q * (s.length - 1))

/-- `score_threshold = analysis_df['score'].quantile(viral_threshold / 100)`
(analyzer.py line 57). -/
def score_threshold (df : List Post) (viral_threshold : ℚ) : ℚ :=
  quantile (df.map Post.score) (viral_threshold / 100)

/-- The rows of one flair group, in frame order (`df.groupby('flair')`
keeps within-group order). -/
def flairGroup (df : List Post) (label : String) : List Post :=
  df.filter (fun p => decide (p.flair = label))

/-- The group keys of `df.groupby('flair')`: the distinct flair labels, in
ascending order (pandas groups with `sort=True` by default). -/
def flairLabels (df : List Post) : List String :=
  List.insertionSort (· ≤ ·) (df.map Post.flair).dedup

/-- One row of the aggregated stats table of `_calculate_flair_stats`
(analyzer.py lines 90-123), under the renamed column names.  The
float-valued derived columns `confidence`, `viral_rate_adjusted` and
`viral_score` are the functions `confidence`, `viral_rate_adjusted` and
`viral_score` below; `score_std` is not modelled (see the file comment). -/
structure FlairStats where
  flair : String
  viral_rate : ℚ
  num_viral_posts : ℕ
  total_posts : ℕ
  avg_score : ℚ
  median_score : ℚ
  max_score : ℚ
  avg_comments : ℚ
  median_comments : ℚ
  max_comments : ℚ
  avg_upvote_ratio : ℚ
  median_upvote_ratio : ℚ
  avg_engagement : ℚ
  max_engagement : ℚ
  avg_efficiency : ℚ
  median_efficiency : ℚ
deriving DecidableEq

/-- The aggregated row for one flair group (analyzer.py lines 90-123):
`is_viral` is aggregated by `mean`/`sum`/`count`, the numeric columns by
`mean`/`median`/`max` as listed in the `agg` call. -/
def statsFor (thr : ℚ) (df : List Post) (label : String) : FlairStats :=
  { flair := label
    viral_rate := ((flairGroup df label).countP (is_viral thr) : ℚ) /
      ((flairGroup df label).length : ℚ)
    num_viral_posts := (flairGroup df label).countP (is_viral thr)
    total_posts := (flairGroup df label).length
    avg_score := meanQ ((flairGroup df label).map Post.score)
    median_score := medianQ ((flairGroup df label).map Post.score)
    max_score := maxQ ((flairGroup df label).map Post.score)
    avg_comments := meanQ ((flairGroup df label).map Post.num_comments)
    median_comments := medianQ ((flairGroup df label).map Post.num_comments)
    max_comments := maxQ ((flairGroup df label).map Post.num_comments)
    avg_upvote_ratio := meanQ ((flairGroup df label).map Post.upvote_ratio)
    median_upvote_ratio := medianQ ((flairGroup df label).map Post.upvote_ratio)
    avg_engagement := meanQ ((flairGroup df label).map engagement)
    max_engagement := maxQ ((flairGroup df label).map engagement)
    avg_efficiency := meanQ ((flairGroup df label).map efficiency)
    median_efficiency := medianQ ((flairGroup df label).map efficiency) }

/-- The full (pre-filter) stats table: one row per group key, in group-key
order. -/
def statsTable (thr : ℚ) (df : List Post) : List FlairStats :=
  (flairLabels df).map (statsFor thr df)

/-- `stats['avg_score'].max()` (analyzer.py line 135): the normalisation
denominator of the composite score, taken over the whole pre-filter stats
table. -/
def maxAvgScore (table : List FlairStats) : ℚ :=
  maxQ (table.map FlairStats.avg_score)

/-- `stats['confidence'] = 1 - (1 / (stats['total_posts'] ** 0.5))`
(analyzer.py line 127), as a function of the sample count. -/
noncomputable def confidence (n : ℕ) : ℝ := 1 - 1 / Real.sqrt n

/-- `stats['viral_rate_adjusted'] = viral_rate * confidence`
(analyzer.py line 130). -/
noncomputable def viral_rate_adjusted (s : FlairStats) : ℝ :=
  (s.viral_rate : ℝ) * confidence s.total_posts

/-- `stats['viral_score'] = viral_rate * 0.5 + (avg_score / avg_score.max())
* 0.3 + confidence * 0.2` (analyzer.py lines 133-137), as a function of the
stats row and the table-wide denominator. -/
noncomputable def viral_score (s : FlairStats) (max_avg : ℚ) : ℝ :=
  (s.viral_rate : ℝ) * (5 / 10) + ((s.avg_score : ℝ) / (max_avg : ℝ)) * (3 / 10)
    + confidence s.total_posts * (2 / 10)

/-- The `viral_score` column of the analysis of `df`: its denominator is the
maximum mean score of the *pre-filter* table (analyzer.py computes the
column at line 133, before the `min_posts` filter at line 140). -/
noncomputable def analysisViralScore (df : List Post) (viral_threshold : ℚ)
    (s : FlairStats) : ℝ :=
  viral_score s (maxAvgScore (statsTable (score_threshold df viral_threshold) df))

/-- The key of `filtered_stats.sort_values('viral_rate', ascending=False)`
(analyzer.py line 143): row `a` precedes row `b` when `b`'s viral rate does
not exceed `a`'s. -/
def vrGE (a b : FlairStats) : Prop := b.viral_rate ≤ a.viral_rate

instance : DecidableRel vrGE := fun a b =>
  inferInstanceAs (Decidable (b.viral_rate ≤ a.viral_rate))

instance : IsTotal FlairStats vrGE :=
  ⟨fun a b => le_total b.viral_rate a.viral_rate⟩

instance : IsTrans FlairStats vrGE :=
  ⟨fun _ _ _ hab hbc => le_trans hbc hab⟩

/-- Modelled from the spec: the tie order of `sort_values('viral_rate',
ascending=False)` among rows of equal viral rate is decided inside pandas,
not by code of this repository; §4.4 step 7 of the spec fixes the
deterministic tie-break "category label ascending".  A stable sort of the
label-ascending group table realises exactly that, so the sort is modelled
by the stable `insertionSort` under the `vrGE` key alone. -/
def sortByViralRate (table : List FlairStats) : List FlairStats :=
  List.insertionSort vrGE table

/-- `_calculate_flair_stats` (analyzer.py lines 84-145): aggregate per
group, drop groups with fewer than `min_posts` rows, sort by viral rate
descending. -/
def _calculate_flair_stats (thr : ℚ) (df : List Post) (min_posts : ℕ) :
    List FlairStats :=
  sortByViralRate ((statsTable thr df).filter (fun s => decide (min_posts ≤ s.total_posts)))

/-- The overall-metrics dictionary of `_calculate_overall_metrics`
(analyzer.py lines 147-167). -/
structure Metrics where
  total_posts : ℕ
  total_viral_posts : ℕ
  viral_post_percentage : ℚ
  total_flairs : ℕ
  analyzed_flairs : ℕ
  avg_score_all_posts : ℚ
  avg_score_viral_posts : ℚ
  avg_comments_all_posts : ℚ
  avg_comments_viral_posts : ℚ
  most_viral_flair : Option String
  most_viral_rate : Option ℚ
  highest_avg_score_flair : Option String
  highest_avg_score : Option ℚ
deriving DecidableEq

/-- `_calculate_overall_metrics` (analyzer.py lines 147-167).
`most_viral_flair` reads the first row of the ranked table;
`highest_avg_score_flair` reads the row `idxmax` finds, the first row
attaining the maximal `avg_score`. -/
def _calculate_overall_metrics (thr : ℚ) (df : List Post)
    (flair_stats : List FlairStats) : Metrics :=
  { total_posts := df.length
    total_viral_posts := (df.filter (is_viral thr)).length
    viral_post_percentage := ((df.filter (is_viral thr)).length : ℚ) / (df.length : ℚ) * 100
    total_flairs := (df.map Post.flair).dedup.length
    analyzed_flairs := flair_stats.length
    avg_score_all_posts := meanQ (df.map Post.score)
    avg_score_viral_posts := meanQ ((df.filter (is_viral thr)).map Post.score)
    avg_comments_all_posts := meanQ (df.map Post.num_comments)
    avg_comments_viral_posts := meanQ ((df.filter (is_viral thr)).map Post.num_comments)
    most_viral_flair := flair_stats.head?.map FlairStats.flair
    most_viral_rate := flair_stats.head?.map FlairStats.viral_rate
    highest_avg_score_flair :=
      (flair_stats.find? (fun s =>
        decide (s.avg_score = maxQ (flair_stats.map FlairStats.avg_score)))).map
        FlairStats.flair
    highest_avg_score :=
      if flair_stats.isEmpty then none
      else some (maxQ (flair_stats.map FlairStats.avg_score)) }

/-- The exceptions `analyze_flair_performance` can raise (see the file
comment): `ValueError` from the required-column check, `ZeroDivisionError`
from `viral_post_percentage` on an empty frame, and `TypeError` from
`_print_analysis_summary` formatting `None` when no flair survived the
filter. -/
inductive AnalyzeError where
  | valueError (column : String)
  | zeroDivisionError
  | typeError
deriving DecidableEq

/-- The result dictionary of `analyze_flair_performance`
(analyzer.py lines 78-82). -/
structure AnalysisResult where
  flair_stats : List FlairStats
  viral_threshold : ℚ
  metrics : Metrics
deriving DecidableEq

/-- `required_columns` (analyzer.py line 50). -/
def required_columns : List String :=
  ["flair", "score", "num_comments", "upvote_ratio"]

/-- `analyze_flair_performance` (analyzer.py lines 30-82), as a function of
the frame's column set and rows.  Control flow of the source: the column
check raises `ValueError` at the first missing required column; otherwise
the threshold, the stats table and the metrics are computed, where an empty
frame raises `ZeroDivisionError` inside `_calculate_overall_metrics` and an
empty ranked table makes `_print_analysis_summary` raise `TypeError`. -/
def analyze_flair_performance (cols : List String) (df : List Post)
    (viral_threshold : ℚ) (min_posts : ℕ) : Except AnalyzeError AnalysisResult :=
  match required_columns.find? (fun c => !cols.contains c) with
  | some c => .error (.valueError c)
  | none =>
    if df.length = 0 then .error .zeroDivisionError
    else if (_calculate_flair_stats (score_threshold df viral_threshold) df min_posts).isEmpty then
      .error .typeError
    else .ok { flair_stats := _calculate_flair_stats (score_threshold df viral_threshold) df min_posts
               viral_threshold := score_threshold df viral_threshold
               metrics := _calculate_overall_metrics (score_threshold df viral_threshold) df
                 (_calculate_flair_stats (score_threshold df viral_threshold) df min_posts) }

/-- The viral threshold of a run, when the run returned a bundle. -/
def thresholdOf (e : Except AnalyzeError AnalysisResult) : Option ℚ :=
  e.toOption.map AnalysisResult.viral_threshold

/-- The ranked stats table of a run, when the run returned a bundle. -/
def rankedOf (e : Except AnalyzeError AnalysisResult) : List FlairStats :=
  (e.toOption.map AnalysisResult.flair_stats).getD []

/-- The metrics of a run, when the run returned a bundle. -/
def metricsOf (e : Except AnalyzeError AnalysisResult) : Option Metrics :=
  e.toOption.map AnalysisResult.metrics

/-!
## The scraper (`redditflairanalyzer/scraper.py`)

The Content Source (Reddit through PRAW) is an external collaborator; it is
modelled by its two capabilities: the ranked listing (`subreddit.top`), a
list of raw posts in ranking order, and per-identifier hydration
(`self.reddit.submission(id=...)` followed by `_extract_post_data`), a
function from an identifier to `Option RawPost` whose `none` stands for the
exception a failed hydration raises.  Completion order of the worker pool is
not modelled: batch results are concatenated in batch order (the spec
guarantees no order, and every property claimed of this stage is
order-independent).
-/

/-- The dictionary `_extract_post_data` builds (scraper.py lines 193-214),
restricted to the fields the downstream pipeline reads; `flair` is
`post.link_flair_text`, which may be `None` before `_process_dataframe`
fills it. -/
structure RawPost where
  id : String
  score : ℚ
  num_comments : ℚ
  upvote_ratio : ℚ
  flair : Option String
deriving DecidableEq

/-- One row after `_process_dataframe` (scraper.py lines 216-231):
`df['flair'].fillna('No Flair')`.  The derived columns (`post_date`,
`post_hour`, `post_day`, `comment_ratio`) are not consumed by the analysis
core and are not modelled. -/
def fillFlair (p : RawPost) : Post :=
  { flair := p.flair.getD "No Flair"
    score := p.score
    num_comments := p.num_comments
    upvote_ratio := p.upvote_ratio }

/-- `_process_dataframe` (scraper.py lines 216-231) applied to the scraped
rows. -/
def _process_dataframe (l : List RawPost) : List Post := l.map fillFlair

/-- `_process_post_batch` (scraper.py lines 172-191): hydrate the batch's
identifiers one at a time; a failed hydration is caught, the item is
dropped, and the loop continues with the next identifier. -/
def _process_post_batch (hydrate : String → Option RawPost) :
    List String → List RawPost
  | [] => []
  | pid :: rest =>
    match hydrate pid with
    | some post => post :: _process_post_batch hydrate rest
    | none => _process_post_batch hydrate rest

/-- Modelled from the spec: the "skipped-count" of §4.2 and §7 ("the item is
dropped, and a skipped-count is incremented").  The source keeps no such
counter (`_process_post_batch` only logs a warning), so the count exists
only as this derived quantity: the number of identifiers of the batch whose
hydration fails. -/
def skippedCount (hydrate : String → Option RawPost) (ids : List String) : ℕ :=
  ids.countP (fun pid => (hydrate pid).isNone)

/-- The ID-collection pass of `_scrape_with_multithreading` (scraper.py
lines 139-152): walk the ranked listing, keeping identifiers only, stopping
at `limit`. -/
def collectPostIds (listing : List RawPost) (limit : ℕ) : List String :=
  (listing.take limit).map RawPost.id

/-- The batch partition `for i in range(0, len(post_ids), batch_size)`
(scraper.py lines 159-160): consecutive slices of size `batch_size`, the
last possibly shorter.  (`batch_size = 0` would raise in Python; the model
then produces singleton slices, a case no claim touches.) -/
def batchesOf (batch_size : ℕ) : List String → List (List String)
  | [] => []
  | x :: xs =>
    (x :: xs.take (batch_size - 1)) :: batchesOf batch_size (xs.drop (batch_size - 1))
termination_by l => l.length
decreasing_by simp [List.length_drop]; omega

/-- `_scrape_with_multithreading` (scraper.py lines 130-170): collect up to
`limit` identifiers from the ranked listing, partition them into batches,
hydrate each batch with `_process_post_batch`, and gather the batch
results. -/
def _scrape_with_multithreading (hydrate : String → Option RawPost)
    (listing : List RawPost) (limit batch_size : ℕ) : List RawPost :=
  ((batchesOf batch_size (collectPostIds listing limit)).map
    (_process_post_batch hydrate)).flatten

/-- `_scrape_sequentially` (scraper.py lines 110-128): walk the ranked
listing itself, extracting each post directly (no identifier pass, no
per-item exception handling), stopping at `limit`. -/
def _scrape_sequentially (listing : List RawPost) (limit : ℕ) : List RawPost :=
  listing.take limit

/-- Which of the two collection paths `scrape_subreddit` takes. -/
inductive ScrapePath where
  | sequential
  | multithreaded
deriving DecidableEq

/-- The path decision `if use_multithreading and limit > self.batch_size`
(scraper.py line 91). -/
def scrapePath (use_multithreading : Bool) (limit batch_size : ℕ) : ScrapePath :=
  if use_multithreading ∧ batch_size < limit then .multithreaded else .sequential

/-- What one `scrape_subreddit` run produces and does: the returned frame
and the identifiers its ID-collection pass walked (empty when the
sequential path skipped that pass). -/
structure ScrapeRun where
  posts : List Post
  idsCollected : List String
deriving DecidableEq

/-- `scrape_subreddit` (scraper.py lines 62-108): pick the collection path,
scrape, and post-process the frame with `_process_dataframe`. -/
def scrape_subreddit (hydrate : String → Option RawPost) (listing : List RawPost)
    (limit batch_size : ℕ) (use_multithreading : Bool) : ScrapeRun :=
  if use_multithreading ∧ batch_size < limit then
    { posts := _process_dataframe
        (_scrape_with_multithreading hydrate listing limit batch_size)
      idsCollected := collectPostIds listing limit }
  else
    { posts := _process_dataframe (_scrape_sequentially listing limit)
      idsCollected := [] }

/-!
## Concrete inputs used by the theorems
-/

/-- The post `A:100` of the spec's end-to-end example (§8). -/
def postA100 : Post := { flair := "A", score := 100, num_comments := 0, upvote_ratio := 1 }

/-- The post `A:10` of the spec's end-to-end example (§8). -/
def postA10 : Post := { flair := "A", score := 10, num_comments := 0, upvote_ratio := 1 }

/-- The post `B:50` of the spec's end-to-end example (§8). -/
def postB50 : Post := { flair := "B", score := 50, num_comments := 0, upvote_ratio := 1 }

/-- The post `B:5` of the spec's end-to-end example (§8). -/
def postB5 : Post := { flair := "B", score := 5, num_comments := 0, upvote_ratio := 1 }

/-- The post `B:60` of the spec's end-to-end example (§8). -/
def postB60 : Post := { flair := "B", score := 60, num_comments := 0, upvote_ratio := 1 }

/-- The record set `{A:100, A:10, B:50, B:5, B:60}` of the spec's
end-to-end example (§8). -/
def dfExample : List Post := [postA100, postA10, postB50, postB5, postB60]

/-- A raw post carrying only its identifier (the payload fields are
irrelevant to the counting claims). -/
def rawIdPost (i : String) : RawPost :=
  { id := i, score := 1, num_comments := 0, upvote_ratio := 1, flair := none }

/-- A ranked listing of ten posts with identifiers "1".."10". -/
def listingTen : List RawPost :=
  ["1", "2", "3", "4", "5", "6", "7", "8", "9", "10"].map rawIdPost

/-- A hydration oracle that fails on exactly the three identifiers
"3", "6" and "9" and returns the post for every other identifier. -/
def hydrateFlaky : String → Option RawPost := fun pid =>
  if pid ∈ (["3", "6", "9"] : List String) then none else some (rawIdPost pid)

/-- A ranked listing of the seven posts the flaky run ends up with. -/
def listingSeven : List RawPost :=
  ["1", "2", "4", "5", "7", "8", "10"].map rawIdPost

/-- A hydration oracle that never fails. -/
def hydrateOk : String → Option RawPost := fun pid => some (rawIdPost pid)

/-!
## Theorems

### Evaluation of the spec's end-to-end example (§8)
-/

theorem exThr : score_threshold dfExample 80 = 68 := by
  norm_num [score_threshold, dfExample, postA100, postA10, postB50, postB5, postB60,
    quantile, interpAt, List.insertionSort, List.orderedInsert, List.getD]
  simp
  norm_num

theorem exLabels : flairLabels dfExample = ["A", "B"] := by
  simp +decide [flairLabels, dfExample, postA100, postA10, postB50, postB5, postB60,
    List.insertionSort, List.orderedInsert]

theorem exGroupA : flairGroup dfExample "A" = [postA100, postA10] := by
  simp +decide [flairGroup, dfExample, postA100, postA10, postB50, postB5, postB60]

theorem exGroupB : flairGroup dfExample "B" = [postB50, postB5, postB60] := by
  simp +decide [flairGroup, dfExample, postA100, postA10, postB50, postB5, postB60]

theorem exVrA : (statsFor 68 dfExample "A").viral_rate = 1 / 2 := by
  norm_num [statsFor, exGroupA, is_viral, postA100, postA10, List.countP, List.countP.go]

theorem exVrB : (statsFor 68 dfExample "B").viral_rate = 0 := by
  norm_num [statsFor, exGroupB, is_viral, postB50, postB5, postB60, List.countP,
    List.countP.go]

theorem exFlairA : (statsFor 68 dfExample "A").flair = "A" := by simp [statsFor]

theorem exFlairB : (statsFor 68 dfExample "B").flair = "B" := by simp [statsFor]

theorem exTotalA : (statsFor 68 dfExample "A").total_posts = 2 := by
  simp [statsFor, exGroupA]

theorem exTotalB : (statsFor 68 dfExample "B").total_posts = 3 := by
  simp [statsFor, exGroupB]

theorem exRanked :
    (rankedOf (analyze_flair_performance required_columns dfExample 80 2)).map
      (fun s => (s.flair, s.viral_rate)) = [("A", 1 / 2), ("B", 0)] := by
  norm_num +decide [rankedOf, analyze_flair_performance, required_columns, exThr,
    _calculate_flair_stats, statsTable, exLabels, sortByViralRate, vrGE,
    exVrA, exVrB, exFlairA, exFlairB, exTotalA, exTotalB, Except.toOption,
    List.insertionSort, List.orderedInsert]

theorem exThresholdOf :
    thresholdOf (analyze_flair_performance required_columns dfExample 80 2) = some 68 := by
  norm_num +decide [thresholdOf, analyze_flair_performance, required_columns, exThr,
    _calculate_flair_stats, statsTable, exLabels, sortByViralRate, vrGE,
    exVrA, exVrB, exFlairA, exFlairB, exTotalA, exTotalB, Except.toOption,
    List.insertionSort, List.orderedInsert]

/-!
### The claims
-/

/-- C1 (amended): on the record set `{A:100, A:10, B:50, B:5, B:60}` with
`P = 80` and `M = 2`, the computed viral threshold is `68` (the pandas
linear-interpolation 80th percentile of `[5, 10, 50, 60, 100]`), exactly
the record `A:100` is classified viral, and both categories appear in the
ranked list with `A` first at viral rate `1/2` and `B` second at viral
rate `0`. -/
theorem analysis_example_threshold_and_ranking :
    thresholdOf (analyze_flair_performance required_columns dfExample 80 2) = some 68 ∧
    dfExample.map (is_viral 68) = [true, false, false, false, false] ∧
    (rankedOf (analyze_flair_performance required_columns dfExample 80 2)).map
      (fun s => (s.flair, s.viral_rate)) = [("A", 1 / 2), ("B", 0)] := by
  refine ⟨exThresholdOf, ?_, exRanked⟩
  norm_num [dfExample, is_viral, postA100, postA10, postB50, postB5, postB60]

/-- C1 (counterexample to the claim as stated): the claim puts the
interpolated 80th percentile of `[5, 10, 50, 60, 100]` at `74`; the code
(pandas linear interpolation, rank `0.8 * 4 = 3.2`) yields
`60 + 0.2 * (100 - 60) = 68`. -/
theorem analysis_example_threshold_ne_74 :
    thresholdOf (analyze_flair_performance required_columns dfExample 80 2) = some 68 ∧
    (some (68 : ℚ) ≠ some (74 : ℚ)) := by
  refine ⟨exThresholdOf, by norm_num⟩

/-- C2 (amended): per-item hydration failure drops exactly the failed item
and the batch run continues to completion: the hydrated records and the
failed identifiers partition the batch, so a 10-identifier batch with
exactly 3 hydration failures yields exactly 7 hydrated records.  (The
source maintains no skipped-count; the count here is the derived quantity
`skippedCount`, see `skipped_count_not_observable_in_output`.) -/
theorem batch_hydration_drops_failures_count :
    (∀ (hydrate : String → Option RawPost) (ids : List String),
      (_process_post_batch hydrate ids).length + skippedCount hydrate ids = ids.length) ∧
    (∀ (hydrate : String → Option RawPost) (ids : List String),
      ids.length = 10 → skippedCount hydrate ids = 3 →
      (_process_post_batch hydrate ids).length = 7) := by
  have key : ∀ (hydrate : String → Option RawPost) (ids : List String),
      (_process_post_batch hydrate ids).length + skippedCount hydrate ids = ids.length := by
    intro hydrate ids
    induction ids with
    | nil => simp [_process_post_batch, skippedCount]
    | cons pid rest ih =>
      cases hh : hydrate pid <;>
        simp only [_process_post_batch, skippedCount, List.countP_cons, hh,
          List.length_cons, List.length] at ih ⊢ <;>
        simp [hh] <;> omega
  refine ⟨key, fun hydrate ids h10 h3 => ?_⟩
  have := key hydrate ids
  omega

/-- C2 (counterexample to the claim as stated): the skipped-count is not
observable in the output bundle.  A 10-identifier run in which 3
hydrations fail returns a frame identical to that of a 7-identifier run in
which none fails, so no consumer of the output bundle can read off a
skipped-count of 3. -/
theorem skipped_count_not_observable_in_output :
    (scrape_subreddit hydrateFlaky listingTen 10 5 true).posts =
      (scrape_subreddit hydrateOk listingSeven 7 5 true).posts ∧
    skippedCount hydrateFlaky (collectPostIds listingTen 10) = 3 ∧
    skippedCount hydrateOk (collectPostIds listingSeven 7) = 0 := by
  refine ⟨?_, ?_, ?_⟩ <;>
    simp +decide [scrape_subreddit, _scrape_with_multithreading, collectPostIds,
      batchesOf, _process_post_batch, _process_dataframe, fillFlair, skippedCount,
      hydrateFlaky, hydrateOk, listingTen, listingSeven, rawIdPost]

/-- C9 (amended): the scraper hydrates sequentially, with no separate
ID-collection pass, exactly when concurrency is disabled or the requested
count does not exceed one batch (`use_multithreading and limit >
batch_size` is the multithreading condition, scraper.py line 91); only
when concurrency is enabled and the count strictly exceeds the batch size
does it run the two-stage ID-collection-then-batched-hydration path. -/
theorem scrape_path_characterisation :
    ∀ (use_multithreading : Bool) (limit batch_size : ℕ)
      (hydrate : String → Option RawPost) (listing : List RawPost),
      (scrapePath use_multithreading limit batch_size = .sequential ↔
        use_multithreading = false ∨ limit ≤ batch_size) ∧
      (scrapePath use_multithreading limit batch_size = .sequential →
        scrape_subreddit hydrate listing limit batch_size use_multithreading =
          { posts := _process_dataframe (_scrape_sequentially listing limit)
            idsCollected := [] }) ∧
      (scrapePath use_multithreading limit batch_size = .multithreaded →
        scrape_subreddit hydrate listing limit batch_size use_multithreading =
          { posts := _process_dataframe
              (_scrape_with_multithreading hydrate listing limit batch_size)
            idsCollected := collectPostIds listing limit }) := by
  intro mt limit B hydrate listing
  have hcond : scrapePath mt limit B = ScrapePath.multithreaded ↔ (mt = true ∧ B < limit) := by
    unfold scrapePath
    split_ifs with hc
    · exact iff_of_true rfl hc
    · exact iff_of_false (by simp) hc
  have hseq : scrapePath mt limit B = ScrapePath.sequential ↔ ¬(mt = true ∧ B < limit) := by
    unfold scrapePath
    split_ifs with hc
    · exact iff_of_false (by simp) (not_not_intro hc)
    · exact iff_of_true rfl hc
  refine ⟨?_, ?_, ?_⟩
  · rw [hseq]
    constructor
    · intro h
      rcases Bool.eq_false_or_eq_true mt with hmt | hmt
      · right
        by_contra hlim
        exact h ⟨hmt, by omega⟩
      · exact Or.inl hmt
    · rintro (h | h)
      · intro hc
        rw [h] at hc
        exact Bool.noConfusion hc.1
      · intro hc
        exact absurd hc.2 (Nat.not_lt.mpr h)
  · intro h
    rw [hseq] at h
    unfold scrape_subreddit
    rw [if_neg h]
  · intro h
    rw [hcond] at h
    unfold scrape_subreddit
    rw [if_pos h]

/-- C9 (counterexample to the claim as stated): with concurrency enabled
and the requested count equal to one batch (`limit = batch_size = 100`) —
a count not smaller than one batch — the scraper still takes the
sequential path and performs no ID-collection pass, where the claim
demands the two-stage path. -/
theorem scrape_at_limit_eq_batch_is_sequential :
    scrapePath true 100 100 = .sequential ∧
    scrapePath true 100 100 ≠ .multithreaded ∧
    (scrape_subreddit (fun _ => none) [] 100 100 true).idsCollected = [] := by
  refine ⟨by simp [scrapePath], by simp [scrapePath], by simp [scrape_subreddit]⟩

/-- C8: the sample-size confidence weight `1 - 1/√n` vanishes at a single
sample, increases strictly with the sample count, tends to `1`, and lies
in `[0, 1)` for every positive sample count. -/
theorem confidence_properties :
    confidence 1 = 0 ∧
    (∀ n m : ℕ, 1 ≤ n → n < m → confidence n < confidence m) ∧
    Filter.Tendsto (fun n : ℕ => confidence n) Filter.atTop (nhds 1) ∧
    (∀ n : ℕ, 1 ≤ n → confidence n ∈ Set.Ico (0 : ℝ) 1) := by
  refine ⟨?_, ?_, ?_, ?_⟩
  · simp [confidence]
  · intro n m hn hm
    have hn0 : (0 : ℝ) < Real.sqrt n :=
      Real.sqrt_pos.mpr (by exact_mod_cast Nat.lt_of_lt_of_le Nat.zero_lt_one hn)
    have hs : Real.sqrt n < Real.sqrt m :=
      Real.sqrt_lt_sqrt (by positivity) (by exact_mod_cast hm)
    have : 1 / Real.sqrt m < 1 / Real.sqrt n := one_div_lt_one_div_of_lt hn0 hs
    simpa only [confidence] using sub_lt_sub_left this 1
  · have h0 : Filter.Tendsto (fun n : ℕ => 1 / Real.sqrt n) Filter.atTop (nhds 0) := by
      have h1 : Filter.Tendsto (fun n : ℕ => Real.sqrt ((n : ℝ)⁻¹)) Filter.atTop
          (nhds (Real.sqrt 0)) := tendsto_inverse_atTop_nhds_zero_nat.sqrt
      simpa [Real.sqrt_zero, Real.sqrt_inv, one_div] using h1
    simpa [confidence] using h0.const_sub (1 : ℝ)
  · intro n hn
    have h1 : (1 : ℝ) ≤ Real.sqrt n := Real.one_le_sqrt.mpr (by exact_mod_cast hn)
    have hn0 : (0 : ℝ) < Real.sqrt n := lt_of_lt_of_le zero_lt_one h1
    constructor
    · have : 1 / Real.sqrt n ≤ 1 := by
        rw [div_le_one hn0]
        exact h1
      simpa [confidence] using this
    · have : 0 < 1 / Real.sqrt n := by positivity
      simp only [confidence]
      linarith

end RedditFlair

namespace RedditFlair

/-- C5 (amended): `analyze_flair_performance` raises `ValueError` exactly
when one of the four required columns (`flair`, `score`, `num_comments`,
`upvote_ratio`) is absent — not only `score`; an empty record set with the
required columns present instead raises `ZeroDivisionError` inside the
summary computation; and in every error case no result bundle is
produced. -/
theorem analyze_error_characterisation :
    ∀ (cols : List String) (df : List Post) (P : ℚ) (M : ℕ),
      ((∃ c, analyze_flair_performance cols df P M = .error (.valueError c)) ↔
        ∃ c ∈ required_columns, c ∉ cols) ∧
      ((∀ c ∈ required_columns, c ∈ cols) → df = [] →
        analyze_flair_performance cols df P M = .error .zeroDivisionError) ∧
      (∀ e, analyze_flair_performance cols df P M = .error e →
        ∀ r, analyze_flair_performance cols df P M ≠ .ok r) := by
  intro cols df P M
  cases hf : required_columns.find? (fun c => !cols.contains c) with
  | some c =>
    have hmem : c ∈ required_columns := List.mem_of_find?_eq_some hf
    have hp := List.find?_some hf
    have hnot : c ∉ cols := by simpa using hp
    refine ⟨?_, ?_, ?_⟩
    · refine iff_of_true ⟨c, ?_⟩ ⟨c, hmem, hnot⟩
      unfold analyze_flair_performance
      rw [hf]
    · intro hall _
      exact absurd (hall c hmem) hnot
    · intro e _ r
      unfold analyze_flair_performance
      rw [hf]
      simp
  | none =>
    have hall : ∀ c ∈ required_columns, c ∈ cols := by
      intro c hc
      have := List.find?_eq_none.mp hf c hc
      simpa using this
    refine ⟨?_, ?_, ?_⟩
    · apply iff_of_false
      · rintro ⟨c, hc⟩
        unfold analyze_flair_performance at hc
        rw [hf] at hc
        by_cases h1 : df.length = 0 <;>
          by_cases h2 : (_calculate_flair_stats (score_threshold df P) df M).isEmpty <;>
          simp [h1, h2] at hc
      · rintro ⟨c, hcm, hcn⟩
        exact hcn (hall c hcm)
    · intro _ hdf
      subst hdf
      unfold analyze_flair_performance
      rw [hf]
      rfl
    · intro e he r
      rw [he]
      simp

/-- C5 (counterexample to the claim as stated): an empty record set with
all required columns present — a case the claim assigns to
`ValidationError` — instead raises `ZeroDivisionError` (the source divides
by `len(df)` in `_calculate_overall_metrics` before any emptiness check),
and a frame missing only the `flair` column raises `ValueError` even
though `score` is present and the record set is non-empty. -/
theorem empty_frame_zero_division_not_validation :
    analyze_flair_performance required_columns [] 80 5 = .error .zeroDivisionError ∧
    analyze_flair_performance ["score", "num_comments", "upvote_ratio"]
      [postA100] 80 5 = .error (.valueError "flair") := by
  constructor
  · simp +decide [analyze_flair_performance, required_columns]
  · simp +decide [analyze_flair_performance, required_columns]

end RedditFlair

namespace RedditFlair

/-- A post of category `X` with a huge score; its singleton group is
excluded by every `min_posts` filter above 1. -/
def postX1000 : Post := { flair := "X", score := 1000, num_comments := 0, upvote_ratio := 1 }

/-- A post of category `Y` with a modest score. -/
def postY10 : Post := { flair := "Y", score := 10, num_comments := 0, upvote_ratio := 1 }

/-- One high-scoring singleton group `X` beside a five-post group `Y`:
with `min_posts = 5` the `X` group is dropped from the ranking but still
sets the normalisation denominator. -/
def dfMFilter : List Post :=
  [postX1000, postY10, postY10, postY10, postY10, postY10]

theorem mfLabels : flairLabels dfMFilter = ["X", "Y"] := by
  simp +decide [flairLabels, dfMFilter, postX1000, postY10,
    List.insertionSort, List.orderedInsert]

theorem mfGroupX : flairGroup dfMFilter "X" = [postX1000] := by
  simp +decide [flairGroup, dfMFilter, postX1000, postY10]

theorem mfGroupY : flairGroup dfMFilter "Y" = [postY10, postY10, postY10, postY10, postY10] := by
  simp +decide [flairGroup, dfMFilter, postX1000, postY10]

theorem mfMaxAvg :
    maxAvgScore (statsTable (score_threshold dfMFilter 90) dfMFilter) = 1000 := by
  norm_num [maxAvgScore, statsTable, mfLabels, statsFor, mfGroupX, mfGroupY, meanQ,
    maxQ, postX1000, postY10, List.insertionSort, List.orderedInsert, List.getD]

/-- C4: the `viral_score` of every ranked group is
`0.5 * viral_rate + 0.3 * (mean_score / max_mean_score) + 0.2 * confidence`
where `max_mean_score` is the maximum per-group mean score over ALL groups
of the input, before the `min_posts` filter; in particular, on
`dfMFilter` the singleton group `X` (mean score 1000) is excluded from the
ranked list by `M = 5`, yet the surviving group `Y` (mean score 10) is
normalised against `X`'s mean of 1000. -/
theorem viral_score_uses_prefilter_max_mean :
    (∀ (df : List Post) (P : ℚ) (M : ℕ) (r : AnalysisResult) (s : FlairStats),
      analyze_flair_performance required_columns df P M = .ok r → s ∈ r.flair_stats →
      analysisViralScore df P s =
        (s.viral_rate : ℝ) * (5 / 10)
          + ((s.avg_score : ℝ) /
              ((maxQ ((flairLabels df).map
                  (fun l => meanQ ((flairGroup df l).map Post.score))) : ℚ) : ℝ)) * (3 / 10)
          + confidence s.total_posts * (2 / 10)) ∧
    maxAvgScore (statsTable (score_threshold dfMFilter 90) dfMFilter) = 1000 ∧
    (rankedOf (analyze_flair_performance required_columns dfMFilter 90 5)).map
      FlairStats.flair = ["Y"] ∧
    (∀ s ∈ rankedOf (analyze_flair_performance required_columns dfMFilter 90 5),
      s.avg_score = 10 ∧
      analysisViralScore dfMFilter 90 s = viral_score s 1000) := by
  have hmap : ∀ (thr : ℚ) (df : List Post),
      maxAvgScore (statsTable thr df) =
        maxQ ((flairLabels df).map (fun l => meanQ ((flairGroup df l).map Post.score))) := by
    intro thr df
    simp only [maxAvgScore, statsTable, List.map_map]
    rfl
  have hranked : (rankedOf (analyze_flair_performance required_columns dfMFilter 90 5)).map
      FlairStats.flair = ["Y"] := by
    simp +decide [rankedOf, analyze_flair_performance, required_columns,
      _calculate_flair_stats, statsTable, mfLabels, sortByViralRate, statsFor,
      mfGroupX, mfGroupY, Except.toOption, List.insertionSort, List.orderedInsert]
  refine ⟨?_, mfMaxAvg, hranked, ?_⟩
  · intro df P M r s _ _
    rw [analysisViralScore, viral_score, hmap]
  · intro s hs
    constructor
    · have : s.flair = "Y" := by
        have := List.mem_map_of_mem FlairStats.flair hs
        rw [hranked] at this
        simpa using this
      -- every ranked row of this run is the `Y` stats row
      have hsval : s = statsFor (score_threshold dfMFilter 90) dfMFilter "Y" := by
        have hmem := hs
        simp +decide [rankedOf, analyze_flair_performance, required_columns,
          _calculate_flair_stats, statsTable, mfLabels, sortByViralRate, statsFor,
          mfGroupX, mfGroupY, Except.toOption, List.insertionSort,
          List.orderedInsert] at hmem
        rw [hmem]
        rfl
      rw [hsval]
      norm_num [statsFor, mfGroupY, meanQ, postY10]
    · rw [analysisViralScore, mfMaxAvg]

end RedditFlair

namespace RedditFlair

/-- The ranking order of the output table: descending viral rate, ties by
ascending category label. -/
def rankRel (a b : FlairStats) : Prop :=
  b.viral_rate < a.viral_rate ∨ (a.viral_rate = b.viral_rate ∧ a.flair ≤ b.flair)

theorem sorted_orderedInsert_rankRel (a : FlairStats) (l : List FlairStats)
    (hs : l.Sorted rankRel) (hflair : ∀ b ∈ l, a.flair ≤ b.flair) :
    (List.orderedInsert vrGE a l).Sorted rankRel := by
  induction l with
  | nil => exact List.sorted_singleton a
  | cons b t ih =>
    rw [List.orderedInsert]
    split_ifs with hab
    · rw [List.sorted_cons]
      refine ⟨?_, hs⟩
      intro c hc
      have hc_le : c.viral_rate ≤ a.viral_rate := by
        rcases List.mem_cons.mp hc with rfl | hct
        · exact hab
        · rcases (List.sorted_cons.mp hs).1 c hct with h | h
          · exact le_trans h.le hab
          · exact h.1 ▸ hab
      rcases lt_or_eq_of_le hc_le with h | h
      · exact Or.inl h
      · exact Or.inr ⟨h.symm, hflair c hc⟩
    · rw [List.sorted_cons]
      have hst := List.sorted_cons.mp hs
      refine ⟨?_, ih hst.2 (fun c hc => hflair c (List.mem_cons_of_mem b hc))⟩
      intro c hc
      rcases (List.mem_orderedInsert vrGE).mp hc with rfl | hct
      · exact Or.inl (not_le.mp hab)
      · exact hst.1 c hct

theorem sorted_insertionSort_rankRel (l : List FlairStats)
    (hl : l.Pairwise (fun a b => a.flair < b.flair)) :
    (List.insertionSort vrGE l).Sorted rankRel := by
  induction l with
  | nil => exact List.sorted_nil
  | cons a t ih =>
    rw [List.insertionSort]
    apply sorted_orderedInsert_rankRel
    · exact ih (List.Pairwise.of_cons hl)
    · intro b hb
      have hbt : b ∈ t := (List.mem_insertionSort vrGE).mp hb
      exact le_of_lt ((List.pairwise_cons.mp hl).1 b hbt)

theorem statsTable_pairwise_flair (thr : ℚ) (df : List Post) :
    (statsTable thr df).Pairwise (fun a b => a.flair < b.flair) := by
  unfold statsTable
  rw [List.pairwise_map]
  have hsorted : (flairLabels df).Sorted (· ≤ ·) := List.sorted_insertionSort _ _
  have hnodup : (flairLabels df).Nodup :=
    ((List.perm_insertionSort _ _).nodup_iff).mpr (df.map Post.flair).nodup_dedup
  exact (hsorted.lt_of_le hnodup).imp (fun h => h)

theorem flair_stats_of_ok {cols : List String} {df : List Post} {P : ℚ} {M : ℕ}
    {r : AnalysisResult} (hok : analyze_flair_performance cols df P M = .ok r) :
    r.flair_stats = _calculate_flair_stats (score_threshold df P) df M := by
  unfold analyze_flair_performance at hok
  cases hf : required_columns.find? (fun c => !cols.contains c) with
  | some c =>
    rw [hf] at hok
    exact Except.noConfusion hok
  | none =>
    rw [hf] at hok
    dsimp only at hok
    by_cases h1 : df.length = 0
    · rw [if_pos h1] at hok
      exact Except.noConfusion hok
    · rw [if_neg h1] at hok
      by_cases h2 : (_calculate_flair_stats (score_threshold df P) df M).isEmpty = true
      · rw [if_pos h2] at hok
        exact Except.noConfusion hok
      · rw [if_neg h2] at hok
        cases hok
        rfl

/-- C3: the ranked list of every successful run is sorted by viral rate
descending, with ties between equal viral rates in ascending order of the
category label, and (the pipeline being a pure function of the record list
and the parameters) it is a deterministic function of its input. -/
theorem ranked_stats_sorted :
    ∀ (cols : List String) (df : List Post) (P : ℚ) (M : ℕ) (r : AnalysisResult),
      analyze_flair_performance cols df P M = .ok r →
      r.flair_stats.Sorted rankRel := by
  intro cols df P M r hok
  rw [flair_stats_of_ok hok]
  unfold _calculate_flair_stats sortByViralRate
  apply sorted_insertionSort_rankRel
  exact List.Pairwise.sublist (List.filter_sublist _) (statsTable_pairwise_flair _ _)

/-- C3 (witness): the ranked list of the end-to-end example run is sorted
under `rankRel`. -/
theorem ranked_stats_sorted_witness :
    (rankedOf (analyze_flair_performance required_columns dfExample 80 2)).Sorted rankRel := by
  cases hok : analyze_flair_performance required_columns dfExample 80 2 with
  | error e => simp [rankedOf, hok, Except.toOption]
  | ok r =>
    have := ranked_stats_sorted required_columns dfExample 80 2 r hok
    simpa [rankedOf, hok, Except.toOption] using this

end RedditFlair

namespace RedditFlair

theorem sorted_getD_le {s : List ℚ} (hs : s.Sorted (· ≤ ·)) {a b : ℕ}
    (hab : a ≤ b) (hb : b < s.length) : s.getD a 0 ≤ s.getD b 0 := by
  have ha : a < s.length := lt_of_le_of_lt hab hb
  rw [List.getD_eq_getElem s 0 ha, List.getD_eq_getElem s 0 hb]
  have h := hs.rel_get_of_le (a := ⟨a, ha⟩) (b := ⟨b, hb⟩) (Fin.mk_le_mk.mpr hab)
  simpa using h

theorem interpAt_mono {s : List ℚ} (hs : s.Sorted (· ≤ ·)) (hne : s ≠ [])
    {g₁ g₂ : ℚ} (h0 : 0 ≤ g₁) (h12 : g₁ ≤ g₂) (hub : g₂ ≤ (s.length : ℚ) - 1) :
    interpAt s g₁ ≤ interpAt s g₂ := by
  have hn1 : 1 ≤ s.length := List.length_pos.mpr hne
  have h0' : 0 ≤ g₂ := le_trans h0 h12
  have hf1 : (0 : ℤ) ≤ ⌊g₁⌋ := Int.floor_nonneg.mpr h0
  have hf2 : (0 : ℤ) ≤ ⌊g₂⌋ := Int.floor_nonneg.mpr h0'
  have hc1 : ((⌊g₁⌋.toNat : ℕ) : ℚ) = ((⌊g₁⌋ : ℤ) : ℚ) := by
    exact_mod_cast congrArg (fun z : ℤ => (z : ℚ)) (Int.toNat_of_nonneg hf1)
  have hc2 : ((⌊g₂⌋.toNat : ℕ) : ℚ) = ((⌊g₂⌋ : ℤ) : ℚ) := by
    exact_mod_cast congrArg (fun z : ℤ => (z : ℚ)) (Int.toNat_of_nonneg hf2)
  have hI1le : ((⌊g₁⌋.toNat : ℕ) : ℚ) ≤ g₁ := by rw [hc1]; exact Int.floor_le g₁
  have hI1gt : g₁ < (⌊g₁⌋.toNat : ℕ) + 1 := by rw [hc1]; exact_mod_cast Int.lt_floor_add_one g₁
  have hI2le : ((⌊g₂⌋.toNat : ℕ) : ℚ) ≤ g₂ := by rw [hc2]; exact Int.floor_le g₂
  have hfloorub : ⌊g₂⌋ ≤ (s.length : ℤ) - 1 := by
    have h1 : ⌊g₂⌋ ≤ ⌊(s.length : ℚ) - 1⌋ := Int.floor_le_floor hub
    have h2 : ((s.length : ℚ) - 1) = (((s.length : ℤ) - 1 : ℤ) : ℚ) := by push_cast; ring
    rw [h2, Int.floor_intCast] at h1
    exact h1
  have hfloor12 : ⌊g₁⌋ ≤ ⌊g₂⌋ := Int.floor_le_floor h12
  have hi12 : ⌊g₁⌋.toNat ≤ ⌊g₂⌋.toNat := by omega
  have hi2ub : ⌊g₂⌋.toNat ≤ s.length - 1 := by omega
  have hi1ub : ⌊g₁⌋.toNat ≤ s.length - 1 := le_trans hi12 hi2ub
  simp only [interpAt]
  have hA1 : s.getD ⌊g₁⌋.toNat 0 ≤ s.getD (min (⌊g₁⌋.toNat + 1) (s.length - 1)) 0 :=
    sorted_getD_le hs (by omega) (by omega)
  have hA2 : s.getD ⌊g₂⌋.toNat 0 ≤ s.getD (min (⌊g₂⌋.toNat + 1) (s.length - 1)) 0 :=
    sorted_getD_le hs (by omega) (by omega)
  rcases Nat.lt_or_ge ⌊g₁⌋.toNat ⌊g₂⌋.toNat with hlt | hge
  · have hB1 : interpAt s g₁ ≤ s.getD (min (⌊g₁⌋.toNat + 1) (s.length - 1)) 0 := by
      unfold interpAt
      nlinarith [hA1, hI1le, hI1gt]
    have hB2 : s.getD (min (⌊g₁⌋.toNat + 1) (s.length - 1)) 0 ≤ s.getD ⌊g₂⌋.toNat 0 :=
      sorted_getD_le hs (by omega) (by omega)
    have hB3 : s.getD ⌊g₂⌋.toNat 0 ≤ interpAt s g₂ := by
      simp only [interpAt]
      nlinarith [hA2, hI2le]
    have hchain := le_trans (le_trans hB1 hB2) hB3
    simp only [interpAt] at hchain
    exact hchain
  · have heq : ⌊g₁⌋.toNat = ⌊g₂⌋.toNat := le_antisymm hi12 hge
    rw [heq]
    nlinarith [hA2, hI2le, h12, hc1, hc2, heq]

theorem quantile_mono (scores : List ℚ) (hne : scores ≠ []) {q₁ q₂ : ℚ}
    (h0 : 0 ≤ q₁) (h12 : q₁ ≤ q₂) (h1 : q₂ ≤ 1) :
    quantile scores q₁ ≤ quantile scores q₂ := by
  unfold quantile
  have hs : (List.insertionSort (· ≤ ·) scores).Sorted (· ≤ ·) :=
    List.sorted_insertionSort _ _
  have hlen : (List.insertionSort (· ≤ ·) scores).length = scores.length :=
    (List.perm_insertionSort _ _).length_eq
  have hsne : List.insertionSort (· ≤ ·) scores ≠ [] := by
    intro hcon
    apply hne
    rw [← List.length_eq_zero, ← hlen, hcon]
    rfl
  have hnn : (0 : ℚ) ≤ (List.insertionSort (· ≤ ·) scores).length - 1 := by
    have : 1 ≤ (List.insertionSort (· ≤ ·) scores).length := List.length_pos.mpr hsne
    have : (1 : ℚ) ≤ ((List.insertionSort (· ≤ ·) scores).length : ℚ) := by exact_mod_cast this
    linarith
  apply interpAt_mono hs hsne
  · exact mul_nonneg h0 hnn
  · exact mul_le_mul_of_nonneg_right h12 hnn
  · calc q₂ * ((List.insertionSort (· ≤ ·) scores).length - 1)
        ≤ 1 * ((List.insertionSort (· ≤ ·) scores).length - 1) :=
          mul_le_mul_of_nonneg_right h1 hnn
      _ = (List.insertionSort (· ≤ ·) scores).length - 1 := one_mul _

/-- C7: for a fixed non-empty record collection, the viral threshold (the
interpolated `P`-th percentile of the scores) is monotone in the
percentile parameter `P` over `[0, 100]`. -/
theorem score_threshold_monotone :
    ∀ (df : List Post) (P₁ P₂ : ℚ), df ≠ [] → 0 ≤ P₁ → P₁ < P₂ → P₂ ≤ 100 →
      score_threshold df P₁ ≤ score_threshold df P₂ := by
  intro df P₁ P₂ hne h0 h12 h100
  unfold score_threshold
  apply quantile_mono
  · simpa using hne
  · exact div_nonneg h0 (by norm_num)
  · linarith
  · exact (div_le_one (by norm_num)).mpr h100

end RedditFlair

namespace RedditFlair

/-- C7 (witness): on the example frame, the 50th-percentile threshold does
not exceed the 80th-percentile threshold. -/
theorem score_threshold_monotone_witness :
    score_threshold dfExample 50 ≤ score_threshold dfExample 80 :=
  score_threshold_monotone dfExample 50 80 (by simp [dfExample]) (by norm_num)
    (by norm_num) (by norm_num)

theorem interpAt_le_top {s : List ℚ} (hs : s.Sorted (· ≤ ·)) (hne : s ≠ [])
    {g : ℚ} (h0 : 0 ≤ g) (hub : g ≤ (s.length : ℚ) - 1) :
    interpAt s g ≤ s.getD (s.length - 1) 0 := by
  have hn1 : 1 ≤ s.length := List.length_pos.mpr hne
  have hf : (0 : ℤ) ≤ ⌊g⌋ := Int.floor_nonneg.mpr h0
  have hc : ((⌊g⌋.toNat : ℕ) : ℚ) = ((⌊g⌋ : ℤ) : ℚ) := by
    exact_mod_cast congrArg (fun z : ℤ => (z : ℚ)) (Int.toNat_of_nonneg hf)
  have hIle : ((⌊g⌋.toNat : ℕ) : ℚ) ≤ g := by rw [hc]; exact Int.floor_le g
  have hIgt : g < (⌊g⌋.toNat : ℕ) + 1 := by rw [hc]; exact_mod_cast Int.lt_floor_add_one g
  have hfloorub : ⌊g⌋ ≤ (s.length : ℤ) - 1 := by
    have h1 : ⌊g⌋ ≤ ⌊(s.length : ℚ) - 1⌋ := Int.floor_le_floor hub
    have h2 : ((s.length : ℚ) - 1) = (((s.length : ℤ) - 1 : ℤ) : ℚ) := by push_cast; ring
    rw [h2, Int.floor_intCast] at h1
    exact h1
  have hiub : ⌊g⌋.toNat ≤ s.length - 1 := by omega
  have hA : s.getD ⌊g⌋.toNat 0 ≤ s.getD (min (⌊g⌋.toNat + 1) (s.length - 1)) 0 :=
    sorted_getD_le hs (by omega) (by omega)
  have hB : s.getD (min (⌊g⌋.toNat + 1) (s.length - 1)) 0 ≤ s.getD (s.length - 1) 0 :=
    sorted_getD_le hs (by omega) (by omega)
  simp only [interpAt]
  nlinarith [hA, hB, hIle, hIgt]

theorem exists_top_score (df : List Post) (P : ℚ) (hne : df ≠ []) (h0 : 0 ≤ P)
    (h1 : P ≤ 100) : ∃ p ∈ df, score_threshold df P ≤ p.score := by
  have hmapne : df.map Post.score ≠ [] := by simpa using hne
  have hs : (List.insertionSort (· ≤ ·) (df.map Post.score)).Sorted (· ≤ ·) :=
    List.sorted_insertionSort _ _
  have hlen : (List.insertionSort (· ≤ ·) (df.map Post.score)).length =
      (df.map Post.score).length := (List.perm_insertionSort _ _).length_eq
  have hsne : List.insertionSort (· ≤ ·) (df.map Post.score) ≠ [] := by
    intro hcon
    apply hmapne
    rw [← List.length_eq_zero, ← hlen, hcon]
    rfl
  have hn1 : 1 ≤ (List.insertionSort (· ≤ ·) (df.map Post.score)).length :=
    List.length_pos.mpr hsne
  have hnn : (0 : ℚ) ≤ ((List.insertionSort (· ≤ ·) (df.map Post.score)).length : ℚ) - 1 := by
    have : (1 : ℚ) ≤ ((List.insertionSort (· ≤ ·) (df.map Post.score)).length : ℚ) := by
      exact_mod_cast hn1
    linarith
  have hthr : score_threshold df P ≤
      (List.insertionSort (· ≤ ·) (df.map Post.score)).getD
        ((List.insertionSort (· ≤ ·) (df.map Post.score)).length - 1) 0 := by
    unfold score_threshold quantile
    apply interpAt_le_top hs hsne
    · exact mul_nonneg (div_nonneg h0 (by norm_num)) hnn
    · calc (P / 100) * (((List.insertionSort (· ≤ ·) (df.map Post.score)).length : ℚ) - 1)
          ≤ 1 * (((List.insertionSort (· ≤ ·) (df.map Post.score)).length : ℚ) - 1) :=
            mul_le_mul_of_nonneg_right ((div_le_one (by norm_num)).mpr h1) hnn
        _ = ((List.insertionSort (· ≤ ·) (df.map Post.score)).length : ℚ) - 1 := one_mul _
  have hmem : (List.insertionSort (· ≤ ·) (df.map Post.score)).getD
      ((List.insertionSort (· ≤ ·) (df.map Post.score)).length - 1) 0 ∈
      List.insertionSort (· ≤ ·) (df.map Post.score) := by
    rw [List.getD_eq_getElem _ 0 (by omega)]
    exact List.getElem_mem _
  have hmem2 : (List.insertionSort (· ≤ ·) (df.map Post.score)).getD
      ((List.insertionSort (· ≤ ·) (df.map Post.score)).length - 1) 0 ∈ df.map Post.score :=
    (List.mem_insertionSort _).mp hmem
  rcases List.mem_map.mp hmem2 with ⟨p, hp, hscore⟩
  exact ⟨p, hp, hscore ▸ hthr⟩

theorem analysis_of_ok {cols : List String} {df : List Post} {P : ℚ} {M : ℕ}
    {r : AnalysisResult} (hok : analyze_flair_performance cols df P M = .ok r) :
    r = { flair_stats := _calculate_flair_stats (score_threshold df P) df M
          viral_threshold := score_threshold df P
          metrics := _calculate_overall_metrics (score_threshold df P) df
            (_calculate_flair_stats (score_threshold df P) df M) } := by
  unfold analyze_flair_performance at hok
  cases hf : required_columns.find? (fun c => !cols.contains c) with
  | some c =>
    rw [hf] at hok
    exact Except.noConfusion hok
  | none =>
    rw [hf] at hok
    dsimp only at hok
    by_cases h1 : df.length = 0
    · rw [if_pos h1] at hok
      exact Except.noConfusion hok
    · rw [if_neg h1] at hok
      by_cases h2 : (_calculate_flair_stats (score_threshold df P) df M).isEmpty = true
      · rw [if_pos h2] at hok
        exact Except.noConfusion hok
      · rw [if_neg h2] at hok
        cases hok
        rfl

/-- C10: for every non-empty record collection and percentile `P` in
`[0, 100]`, the threshold never exceeds the maximum score, so at least one
record is classified viral; consequently, whenever a result bundle is
produced, its total viral count is at least 1 and the viral subset over
which the summary's viral means are computed is non-empty. -/
theorem some_post_always_viral :
    ∀ (df : List Post) (P : ℚ) (M : ℕ), df ≠ [] → 0 ≤ P → P ≤ 100 →
      (∃ p ∈ df, is_viral (score_threshold df P) p = true) ∧
      (∀ r, analyze_flair_performance required_columns df P M = .ok r →
        1 ≤ r.metrics.total_viral_posts ∧
        df.filter (is_viral r.viral_threshold) ≠ []) := by
  intro df P M hne h0 h1
  rcases exists_top_score df P hne h0 h1 with ⟨p, hp, hple⟩
  have hviral : is_viral (score_threshold df P) p = true := by
    simpa [is_viral] using hple
  refine ⟨⟨p, hp, hviral⟩, ?_⟩
  intro r hok
  have hr := analysis_of_ok hok
  have hthr : r.viral_threshold = score_threshold df P := by rw [hr]
  have hfil : df.filter (is_viral r.viral_threshold) ≠ [] := by
    intro hcon
    have : p ∈ df.filter (is_viral r.viral_threshold) :=
      List.mem_filter.mpr ⟨hp, by rw [hthr]; exact hviral⟩
    rw [hcon] at this
    exact List.not_mem_nil p this
  refine ⟨?_, hfil⟩
  have hcount : r.metrics.total_viral_posts = (df.filter (is_viral (score_threshold df P))).length := by
    rw [hr]
    rfl
  rw [hcount]
  have : 0 < (df.filter (is_viral (score_threshold df P))).length := by
    rw [List.length_pos]
    rw [hthr] at hfil
    exact hfil
  omega

/-- C10 (witness): on the example frame with `P = 80`, some record is
viral, and the produced bundle reports at least one viral post. -/
theorem some_post_always_viral_witness :
    (∃ p ∈ dfExample, is_viral (score_threshold dfExample 80) p = true) ∧
    (∀ r, analyze_flair_performance required_columns dfExample 80 2 = .ok r →
      1 ≤ r.metrics.total_viral_posts ∧
      dfExample.filter (is_viral r.viral_threshold) ≠ []) :=
  some_post_always_viral dfExample 80 2 (by simp [dfExample]) (by norm_num) (by norm_num)

end RedditFlair

namespace RedditFlair

theorem insertionSort_perm_eq {α : Type} [LinearOrder α] {l₁ l₂ : List α}
    (h : l₁.Perm l₂) :
    List.insertionSort (· ≤ ·) l₁ = List.insertionSort (· ≤ ·) l₂ :=
  List.eq_of_perm_of_sorted
    ((List.perm_insertionSort _ _).trans (h.trans (List.perm_insertionSort _ _).symm))
    (List.sorted_insertionSort _ _) (List.sorted_insertionSort _ _)

theorem quantile_perm {l₁ l₂ : List ℚ} (h : l₁.Perm l₂) (q : ℚ) :
    quantile l₁ q = quantile l₂ q := by
  unfold quantile
  rw [insertionSort_perm_eq h]

theorem meanQ_perm {l₁ l₂ : List ℚ} (h : l₁.Perm l₂) : meanQ l₁ = meanQ l₂ := by
  unfold meanQ
  rw [h.sum_eq, h.length_eq]

theorem medianQ_perm {l₁ l₂ : List ℚ} (h : l₁.Perm l₂) : medianQ l₁ = medianQ l₂ := by
  unfold medianQ
  rw [insertionSort_perm_eq h]

theorem maxQ_perm {l₁ l₂ : List ℚ} (h : l₁.Perm l₂) : maxQ l₁ = maxQ l₂ := by
  unfold maxQ
  rw [insertionSort_perm_eq h, h.length_eq]

theorem flairLabels_perm_eq {df₁ df₂ : List Post} (h : df₁.Perm df₂) :
    flairLabels df₁ = flairLabels df₂ := by
  unfold flairLabels
  exact insertionSort_perm_eq (h.map Post.flair).dedup

theorem statsFor_perm (thr : ℚ) {df₁ df₂ : List Post} (h : df₁.Perm df₂)
    (label : String) : statsFor thr df₁ label = statsFor thr df₂ label := by
  have hg : (flairGroup df₁ label).Perm (flairGroup df₂ label) := h.filter _
  unfold statsFor
  rw [hg.countP_eq (is_viral thr), hg.length_eq,
    meanQ_perm (hg.map Post.score), medianQ_perm (hg.map Post.score),
    maxQ_perm (hg.map Post.score),
    meanQ_perm (hg.map Post.num_comments), medianQ_perm (hg.map Post.num_comments),
    maxQ_perm (hg.map Post.num_comments),
    meanQ_perm (hg.map Post.upvote_ratio), medianQ_perm (hg.map Post.upvote_ratio),
    meanQ_perm (hg.map engagement), maxQ_perm (hg.map engagement),
    meanQ_perm (hg.map efficiency), medianQ_perm (hg.map efficiency)]

theorem statsTable_perm (thr : ℚ) {df₁ df₂ : List Post} (h : df₁.Perm df₂) :
    statsTable thr df₁ = statsTable thr df₂ := by
  unfold statsTable
  rw [flairLabels_perm_eq h]
  exact List.map_congr_left (fun l _ => statsFor_perm thr h l)

theorem metrics_perm (thr : ℚ) {df₁ df₂ : List Post} (h : df₁.Perm df₂)
    (fs : List FlairStats) :
    _calculate_overall_metrics thr df₁ fs = _calculate_overall_metrics thr df₂ fs := by
  have hv : (df₁.filter (is_viral thr)).Perm (df₂.filter (is_viral thr)) := h.filter _
  unfold _calculate_overall_metrics
  rw [h.length_eq, hv.length_eq, ((h.map Post.flair).dedup).length_eq,
    meanQ_perm (h.map Post.score), meanQ_perm (hv.map Post.score),
    meanQ_perm (h.map Post.num_comments), meanQ_perm (hv.map Post.num_comments)]

/-- C6: aggregation and summarization depend only on the membership of the
record collection, never on arrival order: analysing any permutation of
the records with the same parameters yields the identical result bundle
(and, the pipeline being a pure function, analysing the same collection
twice trivially yields bit-identical output). -/
theorem analyze_perm_invariant :
    ∀ (cols : List String) (df₁ df₂ : List Post) (P : ℚ) (M : ℕ),
      df₁.Perm df₂ →
      analyze_flair_performance cols df₁ P M = analyze_flair_performance cols df₂ P M := by
  intro cols df₁ df₂ P M h
  have hthr : score_threshold df₁ P = score_threshold df₂ P := by
    unfold score_threshold
    exact quantile_perm (h.map Post.score) _
  have hstats : _calculate_flair_stats (score_threshold df₁ P) df₁ M =
      _calculate_flair_stats (score_threshold df₂ P) df₂ M := by
    rw [hthr]
    unfold _calculate_flair_stats
    rw [statsTable_perm _ h]
  have hmet : _calculate_overall_metrics (score_threshold df₁ P) df₁
      (_calculate_flair_stats (score_threshold df₁ P) df₁ M) =
      _calculate_overall_metrics (score_threshold df₂ P) df₂
        (_calculate_flair_stats (score_threshold df₂ P) df₂ M) := by
    rw [hstats, hthr]
    exact metrics_perm _ h _
  unfold analyze_flair_performance
  cases hf : required_columns.find? (fun c => !cols.contains c) with
  | some c => rfl
  | none =>
    dsimp only
    rw [hmet, hstats, hthr, h.length_eq]

/-- C6 (witness): swapping two records of a two-record frame leaves the
result bundle unchanged. -/
theorem analyze_perm_invariant_witness :
    analyze_flair_performance required_columns [postA100, postB50] 80 1 =
      analyze_flair_performance required_columns [postB50, postA100] 80 1 :=
  analyze_perm_invariant required_columns [postA100, postB50] [postB50, postA100] 80 1
    (List.Perm.swap postB50 postA100 [])

end RedditFlair
